import Mathlib

/-!
Verification of the conversational order-taking core (`ordertaker.py`).

This file gives a shallow embedding of the order-taking program's core:
the lexical extractors, the order validator and committer (`send_to_pos`),
the LLM tool-call parser, and the dialogue state machine
(`OrderSystem.process_input` and its phase handlers).  External
collaborators (the LLM network call, the menu spreadsheet, the clock, the
random order-id generator, and the durable order log) are modelled as
explicit parameters (`Ext`) and explicit state (`Turn.log`), exactly at the
boundaries the program itself uses.

Conventions of the embedding:
* Python dict values that flow through tool-call payloads are modelled by
  `JVal` (string / integer / `None` / `Ellipsis`); a missing dict key is
  `Option.none`.
* `speak`/`print` output is collected in `Turn.spoken` / `Turn.printed`
  (with `USE_TTS = False` the program prints the text of every `speak`;
  the `clean_tts_text` rendering step only normalises whitespace and
  strips markup characters, so we record the raw message text).
* `sys.exit(0)` (fired after a successful `[SAVE_ORDER]`) is modelled by
  the `Turn.exited` flag; once set, no further code of the turn runs.
-/

namespace OrderTaker

/-! ## Character and string helpers (Python `in`, `\b`, `.title()`, `.lower()`) -/

/-- Python word character for `\b` word boundaries (ASCII fragment): a
letter, a digit, or an underscore. -/
def wordChar (c : Char) : Bool := c.isAlphanum || c = '_'

/-- Test that `needle` is a prefix of `hay` (on character lists). -/
def prefAt : List Char → List Char → Bool
  | [], _ => true
  | _ :: _, [] => false
  | a :: as, b :: bs => a = b && prefAt as bs

/-- Substring containment on character lists: Python's `needle in hay`. -/
def strIn (needle : List Char) : List Char → Bool
  | [] => needle.isEmpty
  | c :: rest => prefAt needle (c :: rest) || strIn needle rest

/-- Python's `needle in hay` on strings. -/
def hasSub (needle hay : String) : Bool := strIn needle.data hay.data

/-- One step of Python's `str.title()`: a cased character is upper-cased
when the previous character is not alphabetic, lower-cased otherwise. -/
def titleGo : Bool → List Char → List Char
  | _, [] => []
  | prevAlpha, c :: rest =>
      (if c.isAlpha then (if prevAlpha then c.toLower else c.toUpper) else c)
        :: titleGo c.isAlpha rest

/-- Python `str.title()` (ASCII fragment). -/
def titlecase (s : String) : String := String.mk (titleGo false s.data)

/-- Word-boundary occurrence of `w` in `t` (`re.search(r"\b" + w + r"\b", t)`
for a keyword `w` that starts and ends with a word character): `w` occurs
at a position whose neighbours on both sides are absent or non-word. -/
def containsWordGo (w : List Char) : Bool → List Char → Bool
  | _, [] => false
  | prevIsWord, c :: rest =>
      (!prevIsWord && prefAt w (c :: rest) &&
        (match (c :: rest).drop w.length with
         | [] => true
         | a :: _ => !wordChar a))
      || containsWordGo w (wordChar c) rest

/-- Decide `re.search(r"\b(w)\b", t) is not None` for a single keyword `w`. -/
def containsWord (w t : String) : Bool := containsWordGo w.data false t.data

/-! ## Digit-token scanning (`re.search(r'\b(\d+)\b', text)` and the phone
regex `re.search(r'\d{9,15}', stripped)`) -/

/-- Scanner for the first standalone digit token.  `acc` holds (reversed)
the digits of the candidate run currently being read; a candidate is only
opened at a non-word boundary and is abandoned when a word character
follows it, exactly as the regex `\b(\d+)\b` behaves under leftmost
search with backtracking. -/
def digitTokenGo : Bool → List Char → List Char → Option (List Char)
  | _, acc, [] => if acc.isEmpty then none else some acc.reverse
  | prevIsWord, acc, c :: rest =>
      if acc.isEmpty then
        if c.isDigit && !prevIsWord then digitTokenGo true [c] rest
        else digitTokenGo (wordChar c) [] rest
      else
        if c.isDigit then digitTokenGo true (c :: acc) rest
        else if wordChar c then digitTokenGo true [] rest
        else some acc.reverse

/-- The first standalone digit token of `text`, i.e. the match of
`re.search(r'\b(\d+)\b', text)`. -/
def firstDigitToken (text : String) : Option (List Char) :=
  digitTokenGo false [] text.data

/-- Numeric value of a digit run (`int` of the matched token). -/
def digitsToNat (run : List Char) : Nat :=
  run.foldl (fun n c => 10 * n + (c.toNat - 48)) 0

/-- First run of at least 9 consecutive digits, truncated to 15, i.e. the
match of `re.search(r'\d{9,15}', text)`.  `acc` is the (reversed) run
being read. -/
def phoneRunGo : List Char → List Char → Option (List Char)
  | acc, [] => if acc.length ≥ 9 then some (acc.reverse.take 15) else none
  | acc, c :: rest =>
      if c.isDigit then phoneRunGo (c :: acc) rest
      else if acc.length ≥ 9 then some (acc.reverse.take 15)
      else phoneRunGo [] rest

/-- Model of `re.search(r'\d{9,15}', text)` after the program's
`replace(" ", "").replace("-", "")` stripping. -/
def phoneDigits (text : String) : Option String :=
  (phoneRunGo [] ((text.data.filter (fun c => c ≠ ' ' && c ≠ '-')))).map String.mk

/-! ## Data model -/

/-- Dialogue phases (`class OrderState`).  `COMPLETED` is declared by the
program but never assigned. -/
inductive Phase where
  | GREETING | ASK_ITEM | ASK_FLAVOR | ASK_SIZE | ASK_MORE
  | COLLECT_ADDRESS | COLLECT_PHONE | CONFIRM_ORDER | COMPLETED
deriving DecidableEq

/-- Python values flowing through decoded tool-call payloads: a string, an
unbounded integer, `None`, or the `Ellipsis` object that
`ast.literal_eval("...")` produces. -/
inductive JVal where
  | str (s : String)
  | num (n : Int)
  | null
  | ellipsis
deriving DecidableEq

/-- One order line (a Python dict with these keys; `none` = key absent).
The deterministic path fills `quantity`, `category`, `name`, `size`; the
tool-call path fills `name`, `size`, `quantity`. -/
structure Item where
  name : Option JVal := none
  size : Option JVal := none
  quantity : Option JVal := none
  category : Option String := none
deriving DecidableEq

/-- The mutable attributes of `OrderSystem` (one ordering session). -/
structure Session where
  state : Phase := .GREETING
  current_order : List Item := []
  temp_item : Item := {}
  customer_address : String := ""
  customer_phone : String := ""
  /-- `conversation_history`: role-tagged messages. -/
  history : List (String × String) := []
deriving DecidableEq

/-- The argument of `send_to_pos` (the dict built from the session). -/
structure Order where
  items : List Item
  address : String
  phone : String
deriving DecidableEq

/-- The record appended to the durable order log (`orders.json`). -/
structure ConfirmedOrder where
  order_id : String
  timestamp : String
  items : List Item
  address : String
  phone : String
  total_items : Nat
  status : String
deriving DecidableEq

/-- A decoded `[SET_DETAILS: ...]` payload (fields optional). -/
structure Details where
  address : Option String := none
  phone : Option String := none
deriving DecidableEq

/-- Result of `send_to_pos`. -/
inductive PosResult where
  | success (order_id : String)
  | error (message : String)
deriving DecidableEq

/-! ## Lexical extractors -/

/-- Python `str.lower()` (character-wise `Char.toLower`; kept as an
explicit list map so that the kernel can evaluate it). -/
def pyLower (s : String) : String := String.mk (s.data.map Char.toLower)

/-- The fixed number-word table of `extract_quantity` (insertion order). -/
def number_words : List (String × Nat) :=
  [("one", 1), ("two", 2), ("three", 3), ("four", 4), ("five", 5),
   ("six", 6), ("seven", 7), ("eight", 8), ("nine", 9), ("ten", 10)]

/-- Python `extract_quantity(text)`: the first standalone digit token as an
integer; else the first number word (in table order) contained in the
lower-cased text; else 1. -/
def extract_quantity (text : String) : Nat :=
  match firstDigitToken text with
  | some run => digitsToNat run
  | none =>
      match number_words.find? (fun p => hasSub p.1 (pyLower text)) with
      | some p => p.2
      | none => 1

/-- Python `detect_pizza_flavor(text)`: first flavor of the (lower-cased) menu
vocabulary contained in the lower-cased text.  The vocabulary is external
menu data, passed in as `flavors`. -/
def detect_pizza_flavor (flavors : List String) (text : String) : Option String :=
  flavors.find? (fun flavor => hasSub flavor (pyLower text))

/-- The `pizza_sizes` list fixed in `load_menu`. -/
def PIZZA_SIZES : List String := ["small", "regular", "medium", "large", "xxl"]

/-- The `typo_map` dict of `detect_pizza_size` (insertion order). -/
def typo_map : List (String × String) :=
  [("smal", "small"), ("sml", "small"),
   ("reg", "regular"), ("normal", "regular"),
   ("med", "medium"), ("medum", "medium"),
   ("larj", "large"), ("larg", "large"), ("lrg", "large"),
   ("xl", "xxl"), ("extra large", "xxl")]

/-- Python `sorted(typo_map.keys(), key=len, reverse=True)`: the keys of
`typo_map` in length-descending order, ties kept in insertion order
(Python's sort is stable).  `sorted_typos_spec` below checks this list
against `typo_map`. -/
def sorted_typos : List (String × String) :=
  [("extra large", "xxl"),
   ("normal", "regular"),
   ("medum", "medium"),
   ("smal", "small"), ("larj", "large"), ("larg", "large"),
   ("sml", "small"), ("reg", "regular"), ("med", "medium"), ("lrg", "large"),
   ("xl", "xxl")]

/-- Python `detect_pizza_size(text)`: typo/alias keys first (longest key first),
then the canonical size tokens; `none` when nothing matches. -/
def detect_pizza_size (text : String) : Option String :=
  let text_lower := (pyLower text)
  match sorted_typos.find? (fun p => hasSub p.1 text_lower) with
  | some p => some p.2
  | none => PIZZA_SIZES.find? (fun size => hasSub size text_lower)

/-- Python `is_pizza_request(text)`. -/
def is_pizza_request (text : String) : Bool :=
  ["pizza", "pie", "piza", "picza", "pizz", "slice"].any
    (fun keyword => hasSub keyword (pyLower text))

/-! ## Validation helpers and the validator -/

/-- Python `is_valid_address`: truthy, length ≥ 5, no `"..."` inside. -/
def is_valid_address (address : String) : Bool :=
  address ≠ "" && address.length ≥ 5 && !hasSub "..." address

/-- Python `is_valid_phone`: truthy, length ≥ 9, contains a digit. -/
def is_valid_phone (phone : String) : Bool :=
  phone ≠ "" && phone.length ≥ 9 && phone.data.any Char.isDigit

/-- The membership test `item.get(field) in ["...", "", None]` used by
`validate_order` on the `name`/`size` of each item (a missing key reads as
`None`; the `Ellipsis` object and numbers are *not* in that list). -/
def vbad : Option JVal → Bool
  | none => true
  | some .null => true
  | some (.str s) => s = "..." || s = ""
  | some (.num _) => false
  | some .ellipsis => false

/-- The `missing` list accumulated by `validate_order` (size checked
before name for each item, items enumerated from 1). -/
def validate_missing (o : Order) : List String :=
  (if o.items.isEmpty then ["items"]
   else o.items.enum.flatMap (fun p =>
     (if vbad p.2.size then [s!"size for item {p.1 + 1}"] else []) ++
     (if vbad p.2.name then [s!"name for item {p.1 + 1}"] else [])))
  ++ (if is_valid_address o.address then [] else ["valid address"])
  ++ (if is_valid_phone o.phone then [] else ["valid phone number"])

/-- Python `validate_order(order)`: `(True, "Valid")` or
`(False, "Missing details: ...")`. -/
def validate_order (o : Order) : Bool × String :=
  let missing := validate_missing o
  if missing.isEmpty then (true, "Valid")
  else (false, "Missing details: " ++ String.intercalate ", " missing)

/-! ## External collaborators and the per-turn state -/

/-- The external inputs one turn may consume: the raw LLM reply (the text
`call_llm` returns, fallback strings included), the two payload decoders
(`json.loads` with `ast.literal_eval` fallback; `none` models the case
where both raise and the `except` branch runs), the random order id, the
clock reading, and whether the write of `save_order_to_file` succeeds. -/
structure Ext where
  llmReply : String := ""
  decodeItem : String → Option Item := fun _ => none
  decodeDetails : String → Option Details := fun _ => none
  orderId : String := "ORD1000"
  now : String := ""
  writeOk : Bool := true

/-- The state a turn threads: the session, the durable order log
(`orders.json`), the `speak` and `print` output, and whether `sys.exit(0)`
has fired. -/
structure Turn where
  session : Session
  log : List ConfirmedOrder := []
  spoken : List String := []
  printed : List String := []
  exited : Bool := false
deriving DecidableEq

/-- Python `speak(text)` (with `USE_TTS = False` this prints the message). -/
def speak (text : String) (t : Turn) : Turn :=
  { t with spoken := t.spoken ++ [text] }

/-- A console `print`. -/
def consoleLog (text : String) (t : Turn) : Turn :=
  { t with printed := t.printed ++ [text] }

/-- Result of `process_input` as read by the main loop: `"CONTINUE"`,
`"EXIT"`, the implicit `None` of the unhandled `COMPLETED` phase, or the
process-terminating `sys.exit(0)` raised inside tool execution. -/
inductive Res where
  | CONTINUE | EXIT | NORESULT | SYSEXIT
deriving DecidableEq

/-! ## Order committer (`send_to_pos`) -/

/-- The order dict `send_to_pos` receives from the session. -/
def sessionOrder (s : Session) : Order :=
  ⟨s.current_order, s.customer_address, s.customer_phone⟩

/-- Python `send_to_pos(order)`: validates; on failure returns the error with the
log untouched.  On success builds the `order_data` record and appends it
to the order log via `save_order_to_file` — whose boolean result the
program ignores, so the status is `success` even when the write fails
(`writeOk = false` leaves the log unchanged). -/
def send_to_pos (o : Order) (ext : Ext) (log : List ConfirmedOrder) :
    PosResult × List ConfirmedOrder × List String :=
  match validate_order o with
  | (false, msg) => (.error msg, log, [s!"Order validation failed: {msg}"])
  | (true, _) =>
      let order_data : ConfirmedOrder :=
        { order_id := ext.orderId, timestamp := ext.now, items := o.items,
          address := o.address, phone := o.phone,
          total_items := o.items.length, status := "confirmed" }
      (.success ext.orderId,
       if ext.writeOk then log ++ [order_data] else log,
       ["Sending order to POS..."])

/-! ## Tool-call parser -/

/-- Lazy scan for the first `"}]"` (the regex `{.*?})\]` body): the
characters before it, failing at a newline (`.` does not match `\n`) or at
the end of the reply. -/
def takeUntilClose : List Char → Option (List Char)
  | '}' :: ']' :: _ => some []
  | '\n' :: _ => none
  | c :: rest => (takeUntilClose rest).map (fun mid => c :: mid)
  | [] => none

/-- Leftmost match of `tag + "{" + lazy body + "}]"`, i.e. of the patterns
`\[ADD_ITEM: ({.*?})\]` / `\[SET_DETAILS: ({.*?})\]` with
`tag = "[ADD_ITEM: \x7b"` etc.; returns the captured `{...}` group. -/
def findPayload (tag : List Char) : List Char → Option (List Char)
  | [] => none
  | c :: rest =>
      if prefAt tag (c :: rest) then
        match takeUntilClose ((c :: rest).drop tag.length) with
        | some mid => some ('{' :: mid ++ ['}'])
        | none => findPayload tag rest
      else findPayload tag rest

/-- The quantity test `item_data.get("quantity") is Ellipsis or
str(item_data.get("quantity")) == "..."`. -/
def badQty : Option JVal → Bool
  | some .ellipsis => true
  | some (.str s) => s = "..."
  | _ => false

/-- The name/size test `val is Ellipsis or val is None or
"..." in str(val) or val == ""` (a missing key reads as `None`). -/
def badNS : Option JVal → Bool
  | none => true
  | some .null => true
  | some .ellipsis => true
  | some (.str s) => hasSub "..." s || s = ""
  | some (.num _) => false

/-- Python truthiness of `item_data.get("name")` after sanitisation. -/
def truthy : Option JVal → Bool
  | some (.str s) => s ≠ ""
  | some (.num n) => n ≠ 0
  | _ => false

/-- The `ADD_ITEM` application step on a successfully decoded payload:
default the quantity, null out bad `name`/`size` marking the item
incomplete, then either stash as pending (forcing `ASK_SIZE`), drop, or
append to the cart. -/
def apply_add_item (item0 : Item) (t : Turn) : Turn :=
  let item1 := if badQty item0.quantity
               then { item0 with quantity := some (.num 1) } else item0
  let nameBad := badNS item1.name
  let sizeBad := badNS item1.size
  let item2 := if nameBad then { item1 with name := none } else item1
  let item3 := if sizeBad then { item2 with size := none } else item2
  if nameBad || sizeBad then
    if truthy item3.name then
      { t with
        session := { t.session with temp_item := item3, state := .ASK_SIZE },
        printed := t.printed ++ ["Partial item detected, waiting for details"] }
    else consoleLog "Ignored item with no name." t
  else
    { t with
      session := { t.session with
                   current_order := t.session.current_order ++ [item3] },
      printed := t.printed ++ ["Added item"] }

/-- The `ADD_ITEM` block of `parse_and_execute_tools`: find the payload,
decode it (the `except` branch — both decoders raised — only logs). -/
def add_item_stage (ext : Ext) (response : String) (t : Turn) : Turn :=
  match findPayload "[ADD_ITEM: \x7b".data response.data with
  | none => t
  | some payload =>
      match ext.decodeItem (String.mk payload) with
      | none => consoleLog "x Failed to parse item" t
      | some item => apply_add_item item t

/-- The `SET_DETAILS` block: any present field overwrites the session
attribute; decode failure only logs. -/
def set_details_stage (ext : Ext) (response : String) (t : Turn) : Turn :=
  match findPayload "[SET_DETAILS: \x7b".data response.data with
  | none => t
  | some payload =>
      match ext.decodeDetails (String.mk payload) with
      | none => consoleLog "Failed to parse details" t
      | some details =>
          let t := match details.address with
                   | some a => { t with session := { t.session with customer_address := a } }
                   | none => t
          let t := match details.phone with
                   | some p => { t with session := { t.session with customer_phone := p } }
                   | none => t
          consoleLog "Details set" t

/-- The `SAVE_ORDER` block: only fires when the marker is present, the
cart is non-empty and both details are (truthily) set; a successful POS
call speaks a confirmation and calls `sys.exit(0)`. -/
def save_order_stage (ext : Ext) (response : String) (t : Turn) : Turn :=
  if hasSub "[SAVE_ORDER]" response then
    if !t.session.current_order.isEmpty &&
       t.session.customer_address ≠ "" && t.session.customer_phone ≠ "" then
      match send_to_pos (sessionOrder t.session) ext t.log with
      | (.success oid, log, pr) =>
          let t := { t with log := log, printed := t.printed ++ pr }
          { speak s!"Order {oid} placed successfully!" t with exited := true }
      | (.error msg, log, pr) =>
          let t := { t with log := log, printed := t.printed ++ pr }
          speak s!"I cannot save the order yet. {msg}" t
    else consoleLog "Missing details, cannot save yet." t
  else t

/-- Python `parse_and_execute_tools(response)`: the three directive blocks in
program order.  `sys.exit` aborts the rest of the turn, but since
`SAVE_ORDER` is the last block nothing below it runs anyway. -/
def parse_and_execute_tools (ext : Ext) (response : String) (t : Turn) : Turn :=
  save_order_stage ext response (set_details_stage ext response (add_item_stage ext response t))

/-! ## Reply cleaning (`re.sub(r'\[.*?\]', '', response)`) -/

/-- The characters after the first `']'` of the list, failing at a newline
(the lazy `.*?` cannot cross one). -/
def afterRBracket : List Char → Option (List Char)
  | [] => none
  | ']' :: rest => some rest
  | '\n' :: _ => none
  | _ :: rest => afterRBracket rest

theorem afterRBracket_length {l r : List Char} (h : afterRBracket l = some r) :
    r.length < l.length := by
  induction l with
  | nil => simp [afterRBracket] at h
  | cons c rest ih =>
      by_cases hc : c = ']'
      · subst hc; simp [afterRBracket] at h; subst h; simp
      · by_cases hn : c = '\n'
        · subst hn; simp [afterRBracket] at h
        · rw [show afterRBracket (c :: rest) = afterRBracket rest by
              cases rest <;> simp [afterRBracket, hc, hn]] at h
          exact Nat.lt_trans (ih h) (by simp)

/-- Model of `re.sub(r'\[.*?\]', '', s)`: every lazily-bracketed span is removed; a
`'['` with no closing `']'` before a newline or the end survives. -/
def removeBrackets : List Char → List Char
  | [] => []
  | c :: rest =>
      if c = '[' then
        match h : afterRBracket rest with
        | some rest' => removeBrackets rest'
        | none => c :: removeBrackets rest
      else c :: removeBrackets rest
termination_by l => l.length
decreasing_by
  · exact Nat.lt_trans (afterRBracket_length h) (by simp)
  · simp
  · simp

/-! ## Conversation helpers and the LLM delegation step -/

/-- An apostrophe, kept out of the string literals themselves. -/
def apos : String := String.mk [Char.ofNat 39]

/-- Rendering of a payload value inside an f-string.  (In Python a missing
`quantity`/`name` key would raise `KeyError` here; the embedding renders
`"?"` instead — the raise can only happen after the state mutations these
claims are about.) -/
def jstr : JVal → String
  | .str s => s
  | .num n => toString n
  | .null => "None"
  | .ellipsis => "Ellipsis"

def jfield (v : Option JVal) : String := (v.map jstr).getD "?"

/-- The f-string `quantity`x `size` `name` of an item summary. -/
def itemSummaryX (it : Item) : String :=
  s!"{jfield it.quantity}x {jfield it.size} {jfield it.name}"

/-- The f-string `quantity` `size` `name` of an item summary. -/
def itemSummary (it : Item) : String :=
  s!"{jfield it.quantity} {jfield it.size} {jfield it.name}"

/-- Python `get_order_summary_text`. -/
def get_order_summary_text (s : Session) : String :=
  if s.current_order.isEmpty then
    "You haven" ++ apos ++ "t ordered anything yet."
  else
    let summary := String.intercalate ", " (s.current_order.map itemSummary)
    s!"You have ordered: {summary}."

/-- The keyword set of `check_order_inquiry`. -/
def inquiry_keywords : List String :=
  ["what i ordered", "my order", "cart", "basket", "what did i order",
   "what have i ordered", "check order"]

/-- The keyword test of `check_order_inquiry` (its caller-visible boolean;
the summary `speak` is inlined at the call sites below). -/
def isOrderInquiry (text_lower : String) : Bool :=
  inquiry_keywords.any (fun k => hasSub k text_lower)

/-- Python `is_menu_inquiry`. -/
def is_menu_inquiry (text : String) : Bool :=
  let text_lower := (pyLower text)
  (["list", "menu", "have", "available", "options", "flavors", "flavours",
    "all", "tell me"].any (fun k => containsWord k text_lower))
  || (containsWord "what" text_lower &&
      (["menu", "have", "available"].any (fun k => containsWord k text_lower)))

/-- Python `add_user_message(text, context)`. -/
def add_user_message (text context : String) (t : Turn) : Turn :=
  let content := if context ≠ "" then s!"Instruction: {context}\nUser: {text}" else text
  { t with session := { t.session with
      history := t.session.history ++ [("user", content)] } }

/-- Python `query_llm(user_text, context)`: inject the cart/details/status
context, append the user message, take the collaborator's raw reply
(`ext.llmReply` stands for the text `call_llm` returned; its success flag
is discarded by the program), execute any tools in it, clean the reply of
bracketed directives, and append the raw reply to the history.  The
returned flag is the program's constant `False` second component. -/
def query_llm (ext : Ext) (user_text context : String) (t : Turn) :
    Turn × String × Bool :=
  let s := t.session
  let order_summary :=
    if s.current_order.isEmpty then "Empty"
    else String.intercalate ", " (s.current_order.map itemSummaryX)
  let missing :=
    (if is_valid_address s.customer_address then [] else ["Address"]) ++
    (if is_valid_phone s.customer_phone then [] else ["Phone"])
  let full_context :=
    s!"Current Order Cart: [{order_summary}]. " ++
    (if s.customer_address ≠ "" then s!"Address: {s.customer_address}. "
     else "Address: NOT PROVIDED. ") ++
    (if s.customer_phone ≠ "" then s!"Phone: {s.customer_phone}. "
     else "Phone: NOT PROVIDED. ") ++
    (if !missing.isEmpty then
       let missing_str := String.intercalate ", " missing
       s!"STATUS: MISSING DETAILS ({missing_str}). " ++
       "DO NOT CONFIRM ORDER. ASK FOR MISSING DETAILS."
     else "STATUS: ALL DETAILS PRESENT. READY TO CONFIRM.")
  let full_context := full_context ++ " " ++ context
  let full_context :=
    if s.temp_item ≠ {} ||
       [Phase.ASK_FLAVOR, Phase.ASK_SIZE, Phase.ASK_ITEM].contains s.state then
      full_context ++ " IMPORTANT: If the user provided item details " ++
        "(name/size/quantity), you MUST use the tool in your response."
    else full_context
  let t := add_user_message user_text full_context t
  let response := ext.llmReply
  let t := parse_and_execute_tools ext response t
  if t.exited then (t, "", false)
  else
    let cleaned := (String.mk (removeBrackets response.data)).trim
    let cleaned := if cleaned = "" then "Done." else cleaned
    let t := { t with session := { t.session with
        history := t.session.history ++ [("assistant", response)] } }
    (t, cleaned, false)

/-! ## Phase handlers -/

/-- The flavor enumeration of the `GREETING` menu-inquiry branch. -/
def handle_greeting (fl : List String) (ext : Ext) (user_text : String)
    (t : Turn) : Turn × Res :=
  let text_lower := (pyLower user_text)
  if isOrderInquiry text_lower then
    (speak (get_order_summary_text t.session) t, .CONTINUE)
  else if is_menu_inquiry user_text then
    let flavor_list := fl.map titlecase
    let t :=
      if containsWord "all" text_lower || containsWord "tell me all" text_lower then
        let flavors_str := String.intercalate ", " flavor_list
        speak s!"We have {flavors_str}. What would you like to order?" t
      else
        let flavors_str := String.intercalate ", " (flavor_list.take 8)
        speak s!"We have pizzas like {flavors_str}, and more. What would you like?" t
    ({ t with session := { t.session with state := .ASK_ITEM } }, .CONTINUE)
  else if is_pizza_request user_text then
    let qty := extract_quantity user_text
    let temp : Item := { quantity := some (.num qty), category := some "Pizza" }
    match detect_pizza_flavor fl user_text with
    | some flavor =>
        let temp := { temp with name := some (.str (titlecase flavor)) }
        let t := { t with session := { t.session with temp_item := temp, state := .ASK_SIZE } }
        (speak s!"Great! {qty} {titlecase flavor} pizza. Which size? Small, Regular, Medium, Large, or XXL?" t,
         .CONTINUE)
    | none =>
        let t := { t with session := { t.session with temp_item := temp, state := .ASK_FLAVOR } }
        (speak s!"Sure! {qty} pizza. Which flavor? Chicken Surprise, Jamaican BBQ, Chicago Bold Fold, or any other?" t,
         .CONTINUE)
  else
    let (t, response, _save) :=
      query_llm ext user_text "Customer just started conversation. Guide them to order pizza." t
    if t.exited then (t, .SYSEXIT) else (speak response t, .CONTINUE)

def handle_ask_item (fl : List String) (ext : Ext) (user_text : String)
    (t : Turn) : Turn × Res :=
  let text_lower := (pyLower user_text)
  if isOrderInquiry text_lower then
    (speak (get_order_summary_text t.session) t, .CONTINUE)
  else if is_menu_inquiry user_text then
    let flavor_list := fl.map titlecase
    let t :=
      if containsWord "all" text_lower || containsWord "tell me all" text_lower then
        let flavors_str := String.intercalate ", " flavor_list
        speak s!"We have {flavors_str}. What would you like?" t
      else
        let flavors_str := String.intercalate ", " (flavor_list.take 8)
        speak s!"We have {flavors_str}, and more. What would you like?" t
    (t, .CONTINUE)
  else if is_pizza_request user_text then
    let qty := extract_quantity user_text
    let temp : Item := { quantity := some (.num qty), category := some "Pizza" }
    match detect_pizza_flavor fl user_text with
    | some flavor =>
        let temp := { temp with name := some (.str (titlecase flavor)) }
        let t := { t with session := { t.session with temp_item := temp, state := .ASK_SIZE } }
        (speak s!"{qty} {titlecase flavor} pizza. Which size?" t, .CONTINUE)
    | none =>
        let t := { t with session := { t.session with temp_item := temp, state := .ASK_FLAVOR } }
        (speak s!"{qty} pizza. Which flavor would you like?" t, .CONTINUE)
  else
    let (t, response, _save) :=
      query_llm ext user_text "Customer should order pizza. Guide them naturally." t
    if t.exited then (t, .SYSEXIT) else (speak response t, .CONTINUE)

def handle_ask_flavor (fl : List String) (ext : Ext) (user_text : String)
    (t : Turn) : Turn × Res :=
  let text_lower := (pyLower user_text)
  if isOrderInquiry text_lower then
    (speak (get_order_summary_text t.session) t, .CONTINUE)
  else if is_menu_inquiry user_text then
    let flavor_list := fl.map titlecase
    let t :=
      if containsWord "all" text_lower || containsWord "tell me" text_lower then
        let flavors_str := String.intercalate ", " flavor_list
        speak s!"We have {flavors_str}. Which one would you like?" t
      else
        let flavors_str := String.intercalate ", " (flavor_list.take 5) ++ ", and more"
        speak s!"We have {flavors_str}. Which one would you like?" t
    (t, .CONTINUE)
  else
    match detect_pizza_flavor fl user_text with
    | some flavor =>
        let temp := { t.session.temp_item with name := some (.str (titlecase flavor)) }
        let t := { t with session := { t.session with temp_item := temp, state := .ASK_SIZE } }
        (speak s!"{titlecase flavor} pizza! Which size? Small, Regular, Medium, Large, or XXL?" t, .CONTINUE)
    | none =>
        let (t, response, _save) :=
          query_llm ext user_text "Customer is choosing pizza flavor. Current state: Asking flavor." t
        if t.exited then (t, .SYSEXIT) else (speak response t, .CONTINUE)

/-- Python `handle_ask_size` (no order-inquiry check in this phase).  On a
detected size the pending item receives the title-cased size and a copy is
appended to the cart *before* the pending slot is cleared. -/
def handle_ask_size (ext : Ext) (user_text : String) (t : Turn) : Turn × Res :=
  match detect_pizza_size user_text with
  | some size =>
      let temp := { t.session.temp_item with size := some (.str (titlecase size)) }
      let t := { t with session := { t.session with
                   temp_item := temp,
                   current_order := t.session.current_order ++ [temp] } }
      let t := speak s!"Perfect! {jfield temp.quantity} {titlecase size} {jfield temp.name} added. Anything else?" t
      ({ t with session := { t.session with temp_item := {}, state := .ASK_MORE } }, .CONTINUE)
  | none =>
      let (t, response, _save) :=
        query_llm ext user_text "Customer is choosing pizza size. Available: Small, Regular, Medium, Large, XXL." t
      if t.exited then (t, .SYSEXIT) else (speak response t, .CONTINUE)

def handle_collect_address (user_text : String) (t : Turn) : Turn × Res :=
  let t := { t with session := { t.session with
               customer_address := user_text, state := .COLLECT_PHONE } }
  (speak "Got it! And your phone number please?" t, .CONTINUE)

def handle_collect_phone (user_text : String) (t : Turn) : Turn × Res :=
  match phoneDigits user_text with
  | some ph =>
      let t := { t with session := { t.session with
                   customer_phone := ph, state := .CONFIRM_ORDER } }
      let t := consoleLog "ORDER SUMMARY" t
      let summary := String.intercalate ", " (t.session.current_order.map itemSummary)
      (speak s!"Let me confirm. {summary}. Delivering to {t.session.customer_address}. Phone {ph}. Is this correct?" t,
       .CONTINUE)
  | none =>
      (speak ("I didn" ++ apos ++ "t catch the phone number. Please say it again?") t, .CONTINUE)

/-- The completion keyword set of `handle_ask_more`. -/
def completion_words : List String :=
  ["no", "nope", "that" ++ apos ++ "s all", "thats all", "done", "finish",
   "nothing", "bas", "enough"]

def handle_ask_more (fl : List String) (ext : Ext) (user_text : String)
    (t : Turn) : Turn × Res :=
  let text_lower := (pyLower user_text)
  if completion_words.any (fun w => hasSub w text_lower) then
    if !is_valid_address t.session.customer_address then
      let t := { t with session := { t.session with state := .COLLECT_ADDRESS } }
      (speak "Great! Now, please provide your full delivery address." t, .CONTINUE)
    else if !is_valid_phone t.session.customer_phone then
      let t := { t with session := { t.session with state := .COLLECT_PHONE } }
      (speak "Got the address. And your phone number please?" t, .CONTINUE)
    else
      let t := { t with session := { t.session with state := .CONFIRM_ORDER } }
      let (t, _r) := handle_collect_phone t.session.customer_phone t
      (t, .CONTINUE)
  else if is_pizza_request text_lower then
    let qty := extract_quantity user_text
    let temp : Item := { quantity := some (.num qty), category := some "Pizza" }
    match detect_pizza_flavor fl user_text with
    | some flavor =>
        let temp := { temp with name := some (.str (titlecase flavor)) }
        let t := { t with session := { t.session with temp_item := temp, state := .ASK_SIZE } }
        (speak s!"{qty} {titlecase flavor} pizza. Which size?" t, .CONTINUE)
    | none =>
        let t := { t with session := { t.session with temp_item := temp, state := .ASK_FLAVOR } }
        (speak s!"{qty} pizza. Which flavor?" t, .CONTINUE)
  else
    let (t, response, save_trigger) :=
      query_llm ext user_text s!"Customer can add more items or finish order. Current items: {t.session.current_order.length}" t
    if t.exited then (t, .SYSEXIT)
    else
      let t := speak response t
      if save_trigger then
        -- dead in the source: `query_llm` always returns `False` here
        if t.session.current_order.length > 0 then
          match send_to_pos (sessionOrder t.session) ext t.log with
          | (.success oid, log, pr) =>
              (speak s!"Order saved by AI command. Order ID {oid}." { t with log := log, printed := t.printed ++ pr }, .EXIT)
          | (.error msg, log, pr) =>
              (speak s!"Could not save order. {msg}" { t with log := log, printed := t.printed ++ pr }, .CONTINUE)
        else (speak ("I can" ++ apos ++ "t save an empty order.") t, .CONTINUE)
      else (t, .CONTINUE)

def handle_confirm_order (ext : Ext) (user_text : String) (t : Turn) : Turn × Res :=
  let text_lower := (pyLower user_text)
  if hasSub "yes" text_lower || hasSub "correct" text_lower || hasSub "confirm" text_lower then
    match send_to_pos (sessionOrder t.session) ext t.log with
    | (.success oid, log, pr) =>
        let t := { t with log := log, printed := t.printed ++ pr }
        let t := speak s!"Perfect! Your order {oid} is confirmed. Estimated delivery in 30-45 minutes. Thank you!" t
        (consoleLog s!"Order {oid} saved successfully!" t, .EXIT)
    | (.error msg, log, pr) =>
        let t := { t with log := log, printed := t.printed ++ pr }
        let t := speak ("I can" ++ apos ++ s!"t confirm yet. {msg}") t
        if hasSub "address" msg || hasSub "phone" msg then
          if hasSub "address" msg then
            ({ t with session := { t.session with state := .COLLECT_ADDRESS } }, .CONTINUE)
          else
            ({ t with session := { t.session with state := .COLLECT_PHONE } }, .CONTINUE)
        else (t, .CONTINUE)
  else
    let t := speak "No problem. What would you like to change?" t
    ({ t with session := { t.session with state := .ASK_MORE } }, .CONTINUE)

/-- The exact-match cancel/exit keyword list of `process_input`. -/
def exit_words : List String := ["exit", "quit", "bye", "cancel"]

/-- Python `OrderSystem.process_input(user_text)`: the global exit check, then
dispatch on the phase.  The unhandled `COMPLETED` phase falls through to
Python's implicit `None`. -/
def process_input (fl : List String) (ext : Ext) (user_text : String)
    (t : Turn) : Turn × Res :=
  let text_lower := (pyLower user_text)
  if exit_words.contains text_lower then
    (speak "Thanks for calling! Have a great day!" t, .EXIT)
  else
    match t.session.state with
    | .GREETING => handle_greeting fl ext user_text t
    | .ASK_ITEM => handle_ask_item fl ext user_text t
    | .ASK_FLAVOR => handle_ask_flavor fl ext user_text t
    | .ASK_SIZE => handle_ask_size ext user_text t
    | .ASK_MORE => handle_ask_more fl ext user_text t
    | .COLLECT_ADDRESS => handle_collect_address user_text t
    | .COLLECT_PHONE => handle_collect_phone user_text t
    | .CONFIRM_ORDER => handle_confirm_order ext user_text t
    | .COMPLETED => (t, .NORESULT)

/-! ## Shared concrete objects and helper lemmas -/

/-- A fully resolved cart line as the deterministic path produces it. -/
def goodItem : Item :=
  ⟨some (.str "Chicken Surprise"), some (.str "Large"), some (.num 2), some "Pizza"⟩

/-- Default external collaborators (no tool decoding, write succeeds). -/
def defaultExt : Ext := {}

theorem send_to_pos_invalid (o : Order) (ext : Ext) (log : List ConfirmedOrder)
    (h : (validate_order o).1 = false) :
    send_to_pos o ext log =
      (.error (validate_order o).2, log,
       [s!"Order validation failed: {(validate_order o).2}"]) := by
  unfold send_to_pos
  rcases hv : validate_order o with ⟨b, msg⟩
  rw [hv] at h
  cases b
  · rfl
  · simp at h

theorem send_to_pos_fst_success (o : Order) (ext : Ext) (log : List ConfirmedOrder)
    (h : (send_to_pos o ext log).1 = .success oid) :
    (validate_order o).1 = true := by
  by_cases hv : (validate_order o).1 = true
  · exact hv
  · rw [send_to_pos_invalid o ext log (by simpa using hv)] at h
    simp at h

/-! ## C4 — `extract_quantity` -/

/-- C4 counterexample: the claim says `extract_quantity` always returns an
integer that is at least 1, but on the input `"0"` the first standalone
digit token is `"0"` and the function returns 0. -/
theorem extract_quantity_cex :
    extract_quantity "0" = 0 ∧ ¬ (1 ≤ extract_quantity "0") := by decide

/-- C4 (amended): `extract_quantity` is total and returns the first
standalone digit token as an integer when one exists (which is 0 when
that token denotes zero); otherwise it returns the value of the first
matching number word of the fixed one-to-ten table, or the default 1, and
in that case the result is at least 1. -/
theorem extract_quantity_amended (s : String) :
    (∀ run, firstDigitToken s = some run → extract_quantity s = digitsToNat run) ∧
    (firstDigitToken s = none →
      1 ≤ extract_quantity s ∧
      extract_quantity s =
        ((number_words.find? (fun p => hasSub p.1 (pyLower s))).map Prod.snd).getD 1) := by
  constructor
  · intro run h
    simp [extract_quantity, h]
  · intro h
    have hval : ∀ p ∈ number_words, 1 ≤ p.2 := by decide
    constructor
    · unfold extract_quantity
      rw [h]
      cases hf : number_words.find? (fun p => hasSub p.1 (pyLower s)) with
      | none => simp
      | some p => exact hval p (List.mem_of_find?_eq_some hf)
    · unfold extract_quantity
      rw [h]
      cases hf : number_words.find? (fun p => hasSub p.1 (pyLower s)) <;> simp

/-- C4 witness: a digit token is returned verbatim, and a token-free text
yields at least 1. -/
theorem extract_quantity_amended_witness :
    extract_quantity "2 pizzas" = 2 ∧ 1 ≤ extract_quantity "a pizza" := by
  refine ⟨?_, ((extract_quantity_amended "a pizza").2 (by decide)).1⟩
  have h := (extract_quantity_amended "2 pizzas").1 ['2'] (by decide)
  simpa [digitsToNat] using h

/-! ## C5 — `detect_pizza_size` -/

/-- C5: `detect_pizza_size` checks the typo/alias keys first, iterated in
length-descending order (a stable sort of the `typo_map` keys), returns
the alias target of the first matching key, falls back to the canonical
size tokens, and returns `none` when nothing matches; in particular
`"extra large pepperoni"` resolves to `"xxl"` rather than being shadowed
by the substring `"large"`. -/
theorem detect_pizza_size_spec :
    detect_pizza_size "extra large pepperoni" = some "xxl" ∧
    sorted_typos.Perm typo_map ∧
    List.Pairwise (fun a b => b.1.length ≤ a.1.length) sorted_typos ∧
    (∀ text p, sorted_typos.find? (fun q => hasSub q.1 (pyLower text)) = some p →
        detect_pizza_size text = some p.2) ∧
    (∀ text, (∀ p ∈ sorted_typos, hasSub p.1 (pyLower text) = false) →
             (∀ sz ∈ PIZZA_SIZES, hasSub sz (pyLower text) = false) →
             detect_pizza_size text = none) := by
  refine ⟨by decide, by decide, by decide, ?_, ?_⟩
  · intro text p h
    simp [detect_pizza_size, h]
  · intro text h1 h2
    have e1 : sorted_typos.find? (fun q => hasSub q.1 (pyLower text)) = none :=
      List.find?_eq_none.mpr (by intro x hx; simpa using h1 x hx)
    have e2 : PIZZA_SIZES.find? (fun sz => hasSub sz (pyLower text)) = none :=
      List.find?_eq_none.mpr (by intro x hx; simpa using h2 x hx)
    simp [detect_pizza_size, e1, e2]

/-- C5 witness: nothing matches on `"hello"`; the typo key `"larg"`
resolves through the alias table. -/
theorem detect_pizza_size_spec_witness :
    detect_pizza_size "hello" = none ∧ detect_pizza_size "larg" = some "large" := by
  exact ⟨detect_pizza_size_spec.2.2.2.2 "hello" (by decide) (by decide),
         detect_pizza_size_spec.2.2.2.1 "larg" ("larg", "large") (by decide)⟩

/-! ## C1 — `validate_order` -/

/-- The spec's side condition "size required only for categories that need
it" (the spec requires a size for the pizza category only). -/
def requiresSize (it : Item) : Bool := it.category = some "Pizza"

/-- The claim's Ok-condition, following the spec's words: non-empty cart,
every name resolved, a size required only where the category demands it,
and valid address and phone. -/
def claimValidateOk (o : Order) : Bool :=
  !o.items.isEmpty &&
  o.items.all (fun it => !vbad it.name && (!requiresSize it || !vbad it.size)) &&
  is_valid_address o.address && is_valid_phone o.phone

/-- A sizeless non-pizza line with otherwise complete details. -/
def cokeOrder : Order :=
  ⟨[⟨some (.str "Coke"), none, some (.num 1), some "Drink"⟩],
   "123 Main Street", "03001234567"⟩

/-- C1 counterexample: the claim's condition (size required only for
categories that need it) accepts a sizeless drink line, but
`validate_order` demands a size for every item and returns Missing. -/
theorem validate_order_claim_cex :
    claimValidateOk cokeOrder = true ∧ (validate_order cokeOrder).1 = false ∧
    validate_missing cokeOrder = ["size for item 1"] := by decide

theorem flatMap_reasons_eq_nil (l : List (Nat × Item)) :
    (l.flatMap (fun p =>
      (if vbad p.2.size then [s!"size for item {p.1 + 1}"] else []) ++
      (if vbad p.2.name then [s!"name for item {p.1 + 1}"] else []))) = [] ↔
    ∀ p ∈ l, vbad p.2.size = false ∧ vbad p.2.name = false := by
  induction l with
  | nil => simp
  | cons q rest ih =>
      simp only [List.flatMap_cons, List.append_eq_nil, ih, List.mem_cons]
      constructor
      · rintro ⟨⟨hs, hn⟩, hrest⟩ p hp
        rcases hp with rfl | hp
        · constructor
          · cases h : vbad p.2.size
            · rfl
            · simp [h] at hs
          · cases h : vbad p.2.name
            · rfl
            · simp [h] at hn
        · exact hrest p hp
      · intro hall
        refine ⟨⟨?_, ?_⟩, fun p hp => hall p (Or.inr hp)⟩
        · rcases hall q (Or.inl rfl) with ⟨hs, _⟩
          simp [hs]
        · rcases hall q (Or.inl rfl) with ⟨_, hn⟩
          simp [hn]

theorem forall_mem_enum_snd {P : Item → Prop} (l : List Item) :
    (∀ p ∈ l.enum, P p.2) ↔ ∀ it ∈ l, P it := by
  constructor
  · intro h it hit
    have : it ∈ l.enum.map Prod.snd := by
      rw [List.enum_map_snd]
      exact hit
    rcases List.mem_map.mp this with ⟨p, hp, rfl⟩
    exact h p hp
  · intro h p hp
    apply h
    rw [← List.enum_map_snd l]
    exact List.mem_map.mpr ⟨p, hp, rfl⟩

/-- C1 (amended): `validate_order` returns Ok exactly when the items list
is non-empty, *every* item — regardless of its category — has a name and a
size outside `{"...", "", None}`, the address passes `is_valid_address`,
and the phone passes `is_valid_phone`; otherwise it returns the Missing
result built from the accumulated reason list. -/
theorem validate_order_ok_iff (o : Order) :
    (validate_order o).1 = true ↔
      (o.items ≠ [] ∧ ∀ it ∈ o.items, vbad it.name = false ∧ vbad it.size = false) ∧
      is_valid_address o.address = true ∧ is_valid_phone o.phone = true := by
  have hmain : (validate_order o).1 = true ↔ validate_missing o = [] := by
    cases h : validate_missing o with
    | nil => simp [validate_order, h]
    | cons x xs => simp [validate_order, h]
  rw [hmain]
  unfold validate_missing
  cases hitems : o.items with
  | nil => simp [hitems]
  | cons a as =>
      have hne : a :: as ≠ [] := by simp
      simp only [List.isEmpty_cons, Bool.false_eq_true, if_false, List.append_eq_nil,
        flatMap_reasons_eq_nil,
        forall_mem_enum_snd (P := fun it => vbad it.size = false ∧ vbad it.name = false)]
      constructor
      · rintro ⟨⟨hall, haddr⟩, hphone⟩
        refine ⟨⟨hne, fun it hit => ⟨(hall it hit).2, (hall it hit).1⟩⟩, ?_, ?_⟩
        · cases ha : is_valid_address o.address
          · simp [ha] at haddr
          · rfl
        · cases hp : is_valid_phone o.phone
          · simp [hp] at hphone
          · rfl
      · rintro ⟨⟨_, hall⟩, haddr, hphone⟩
        exact ⟨⟨fun it hit => ⟨(hall it hit).2, (hall it hit).1⟩, by simp [haddr]⟩,
               by simp [hphone]⟩

/-- C1 witness: a complete pizza order validates Ok. -/
theorem validate_order_ok_iff_witness :
    (validate_order ⟨[goodItem], "123 Main Street", "03001234567"⟩).1 = true := by
  exact (validate_order_ok_iff _).mpr (by decide)

/-! ## C3 — commit runs validation first, failure has no side effects -/

/-- C3: commit (`send_to_pos`) validates first; on failure it returns the
validation error, appends nothing to the order log and builds no
`ConfirmedOrder`; reached through `handle_confirm_order`, the session's
cart, address and phone are unchanged, no success is reported, and a
session missing only a valid address yields exactly the reason list
`["valid address"]`. -/
theorem commit_validation_gate :
    (∀ (o : Order) (ext : Ext) (log : List ConfirmedOrder),
        (validate_order o).1 = false →
        (send_to_pos o ext log).1 = .error (validate_order o).2 ∧
        (send_to_pos o ext log).2.1 = log) ∧
    (∀ (ext : Ext) (u : String) (t : Turn),
        (validate_order (sessionOrder t.session)).1 = false →
        (hasSub "yes" (pyLower u) || hasSub "correct" (pyLower u) ||
         hasSub "confirm" (pyLower u)) = true →
        (handle_confirm_order ext u t).1.session.current_order = t.session.current_order ∧
        (handle_confirm_order ext u t).1.session.customer_address = t.session.customer_address ∧
        (handle_confirm_order ext u t).1.session.customer_phone = t.session.customer_phone ∧
        (handle_confirm_order ext u t).1.log = t.log ∧
        (handle_confirm_order ext u t).2 = .CONTINUE) ∧
    (validate_missing ⟨[goodItem], "", "03001234567"⟩ = ["valid address"] ∧
     ∀ (ext : Ext) (log : List ConfirmedOrder),
       (send_to_pos ⟨[goodItem], "", "03001234567"⟩ ext log).1 =
          .error "Missing details: valid address" ∧
       (send_to_pos ⟨[goodItem], "", "03001234567"⟩ ext log).2.1 = log) := by
  refine ⟨?_, ?_, by decide, ?_⟩
  · intro o ext log h
    rw [send_to_pos_invalid o ext log h]
    exact ⟨rfl, rfl⟩
  · intro ext u t h hyes
    unfold handle_confirm_order
    simp only [hyes, if_true]
    rw [send_to_pos_invalid _ _ _ h]
    split
    · rename_i heq
      exact absurd heq (by simp)
    · rename_i msg' log' pr' heq
      simp only [Prod.mk.injEq, PosResult.error.injEq] at heq
      obtain ⟨h1, h2, h3⟩ := heq
      subst h1
      subst h2
      split
      · split
        · exact ⟨rfl, rfl, rfl, rfl, rfl⟩
        · exact ⟨rfl, rfl, rfl, rfl, rfl⟩
      · exact ⟨rfl, rfl, rfl, rfl, rfl⟩
  · intro ext log
    have h := send_to_pos_invalid ⟨[goodItem], "", "03001234567"⟩ ext log (by decide)
    rw [h]
    constructor
    · show PosResult.error (validate_order ⟨[goodItem], "", "03001234567"⟩).2 =
        PosResult.error "Missing details: valid address"
      decide
    · rfl

/-- C3 witness: committing a session that lacks an address keeps cart,
details and log intact and reports no success. -/
theorem commit_validation_gate_witness :
    (handle_confirm_order defaultExt "yes"
        { session := { state := .CONFIRM_ORDER, current_order := [goodItem],
                       customer_phone := "03001234567" } }).1.log = [] ∧
    (handle_confirm_order defaultExt "yes"
        { session := { state := .CONFIRM_ORDER, current_order := [goodItem],
                       customer_phone := "03001234567" } }).2 = .CONTINUE := by
  have h := commit_validation_gate.2.1 defaultExt "yes"
    { session := { state := .CONFIRM_ORDER, current_order := [goodItem],
                   customer_phone := "03001234567" } }
    (by decide) (by decide)
  exact ⟨h.2.2.2.1, h.2.2.2.2⟩

/-! ## C2 — persistence failure during commit -/

def extNoWrite : Ext := { writeOk := false }

/-- The C2 session: a fully valid order awaiting confirmation. -/
def confirmTurn : Turn :=
  { session := { state := .CONFIRM_ORDER, current_order := [goodItem],
                 customer_address := "123 Main Street",
                 customer_phone := "03001234567" } }

/-- C2: the claim says a failing order-log write is reported to the user
as "cannot save yet" with the session kept in `CONFIRM_ORDER` for a retry.
The code ignores the boolean result of `save_order_to_file`: whenever
validation passes, `send_to_pos` returns `success` even when the write
fails, and the confirm handler announces the order as confirmed and ends
the session — here concretely: the write fails (`writeOk = false`), the
log stays empty, yet the turn returns EXIT speaking the success message. -/
theorem persistence_failure_reported_as_success :
    (∀ (o : Order) (ext : Ext) (log : List ConfirmedOrder),
        (validate_order o).1 = true → ext.writeOk = false →
        (send_to_pos o ext log).1 = .success ext.orderId ∧
        (send_to_pos o ext log).2.1 = log) ∧
    ((process_input ["chicken surprise"] extNoWrite "yes" confirmTurn).2 = .EXIT ∧
     (process_input ["chicken surprise"] extNoWrite "yes" confirmTurn).1.log = [] ∧
     (process_input ["chicken surprise"] extNoWrite "yes" confirmTurn).1.spoken =
       ["Perfect! Your order ORD1000 is confirmed. Estimated delivery in 30-45 minutes. Thank you!"]) := by
  constructor
  · intro o ext log h hw
    unfold send_to_pos
    rcases hv : validate_order o with ⟨b, msg⟩
    rw [hv] at h
    cases b
    · simp at h
    · simp [hw]
  · exact ⟨rfl, rfl, rfl⟩

/-- C2 witness: the general half applied to the concrete failing write. -/
theorem persistence_failure_reported_as_success_witness :
    (send_to_pos ⟨[goodItem], "123 Main Street", "03001234567"⟩ extNoWrite []).1 =
      .success "ORD1000" ∧
    (send_to_pos ⟨[goodItem], "123 Main Street", "03001234567"⟩ extNoWrite []).2.1 = [] := by
  have h := persistence_failure_reported_as_success.1
    ⟨[goodItem], "123 Main Street", "03001234567"⟩ extNoWrite [] (by decide) rfl
  simpa using h

/-! ## C6 — malformed tool payloads never escape the parser -/

/-- C6: a malformed tool payload — one that both the strict and the
relaxed decoder reject (`decode… = none`, the `except` branch) — never
raises out of `parse_and_execute_tools`, for either decoded pattern: a
malformed `ADD_ITEM` payload is caught and only logged, its block leaves
the session untouched, and the turn proceeds with the `SET_DETAILS` and
`SAVE_ORDER` blocks exactly as on the logged state; a malformed
`SET_DETAILS` payload is caught and only logged, its block leaves the
session untouched (whatever state the `ADD_ITEM` block produced), and the
turn proceeds with the `SAVE_ORDER` block on that state. -/
theorem tool_decode_failure_ignored :
    (∀ (ext : Ext) (response : String) (t : Turn) (payload : List Char),
        findPayload "[ADD_ITEM: \x7b".data response.data = some payload →
        ext.decodeItem (String.mk payload) = none →
        add_item_stage ext response t =
          { t with printed := t.printed ++ ["x Failed to parse item"] } ∧
        (add_item_stage ext response t).session = t.session ∧
        parse_and_execute_tools ext response t =
          save_order_stage ext response (set_details_stage ext response
            { t with printed := t.printed ++ ["x Failed to parse item"] })) ∧
    (∀ (ext : Ext) (response : String) (t : Turn) (payload : List Char),
        findPayload "[SET_DETAILS: \x7b".data response.data = some payload →
        ext.decodeDetails (String.mk payload) = none →
        set_details_stage ext response t =
          { t with printed := t.printed ++ ["Failed to parse details"] } ∧
        (set_details_stage ext response t).session = t.session ∧
        parse_and_execute_tools ext response t =
          save_order_stage ext response
            { add_item_stage ext response t with
              printed := (add_item_stage ext response t).printed ++
                ["Failed to parse details"] }) := by
  constructor
  · intro ext response t payload hfind hdec
    have hstage : add_item_stage ext response t =
        { t with printed := t.printed ++ ["x Failed to parse item"] } := by
      unfold add_item_stage
      rw [hfind]
      simp only [hdec]
      rfl
    refine ⟨hstage, by rw [hstage], ?_⟩
    unfold parse_and_execute_tools
    rw [hstage]
  · intro ext response t payload hfind hdec
    have hgen : ∀ t' : Turn, set_details_stage ext response t' =
        { t' with printed := t'.printed ++ ["Failed to parse details"] } := by
      intro t'
      unfold set_details_stage
      rw [hfind]
      simp only [hdec]
      rfl
    refine ⟨hgen t, by rw [hgen t], ?_⟩
    unfold parse_and_execute_tools
    rw [hgen (add_item_stage ext response t)]

/-- A reply whose `ADD_ITEM` and `SET_DETAILS` payloads neither decoder
accepts. -/
def badToolReply : String :=
  "ok [ADD_ITEM: \x7bbad\x7d] and [SET_DETAILS: \x7bbad2\x7d] done"

/-- C6 witness: both malformed payloads are found and rejected; the whole
turn leaves the session unchanged, logging both failures. -/
theorem tool_decode_failure_ignored_witness :
    (parse_and_execute_tools defaultExt badToolReply { session := {} }).session
      = ({} : Session) ∧
    (parse_and_execute_tools defaultExt badToolReply { session := {} }).printed
      = ["x Failed to parse item", "Failed to parse details"] := by
  have hA := tool_decode_failure_ignored.1 defaultExt badToolReply { session := {} }
    "\x7bbad\x7d".data (by decide) rfl
  have hB := tool_decode_failure_ignored.2 defaultExt badToolReply { session := {} }
    "\x7bbad2\x7d".data (by decide) rfl
  rw [hB.2.2, hA.1]
  exact ⟨rfl, rfl⟩

/-! ## C7 — `ADD_ITEM` payload sanitisation -/

/-- The sanitised form of a decoded payload: quantity defaulted when it is
the ellipsis marker, bad name/size nulled out. -/
def sanitizeItem (it : Item) : Item :=
  { name := if badNS it.name then none else it.name,
    size := if badNS it.size then none else it.size,
    quantity := if badQty it.quantity then some (.num 1) else it.quantity,
    category := it.category }

/-- A decoded payload with the non-null (but falsy) name `0`. -/
def zeroNameItem : Item := ⟨some (.num 0), some .null, some (.num 1), none⟩

/-- C7 counterexample: this payload is incomplete (null size) and its name
is non-null, so by the claim it should become the pending item with phase
forced to `ASK_SIZE`; the code instead tests Python truthiness, the name
`0` is falsy, and the item is dropped with the session unchanged. -/
theorem add_item_nonnull_name_cex :
    badNS zeroNameItem.size = true ∧
    zeroNameItem.name ≠ none ∧ zeroNameItem.name ≠ some .null ∧
    (apply_add_item zeroNameItem { session := {} }).session = ({} : Session) ∧
    ({} : Session).state ≠ .ASK_SIZE := by decide

/-- Branch behaviour of the `ADD_ITEM` application step: sanitisation,
stash-as-pending, drop, or append (shared helper). -/
theorem apply_add_item_behavior (it : Item) (t : Turn) :
    ((badNS it.name || badNS it.size) = true →
       truthy (sanitizeItem it).name = true →
       (apply_add_item it t).session.temp_item = sanitizeItem it ∧
       (apply_add_item it t).session.state = .ASK_SIZE ∧
       (apply_add_item it t).session.current_order = t.session.current_order) ∧
    ((badNS it.name || badNS it.size) = true →
       truthy (sanitizeItem it).name = false →
       (apply_add_item it t).session = t.session) ∧
    ((badNS it.name || badNS it.size) = false →
       (apply_add_item it t).session.current_order
         = t.session.current_order ++ [sanitizeItem it] ∧
       (apply_add_item it t).session.temp_item = t.session.temp_item ∧
       (apply_add_item it t).session.state = t.session.state) := by
  refine ⟨fun hinc htr => ?_, fun hinc htr => ?_, fun hcomp => ?_⟩ <;>
    (cases hq : badQty it.quantity <;> cases hn : badNS it.name <;>
      cases hs : badNS it.size <;>
        simp_all [apply_add_item, sanitizeItem, consoleLog])

/-- C7 (amended): for every successfully decoded `ADD_ITEM` payload, an
ellipsis-marker quantity is replaced by 1 and a missing, null, empty or
ellipsis-tainted name or size is nulled out and marks the item incomplete
(`sanitizeItem`); an incomplete item whose sanitised name is *truthy* (a
non-empty string or a non-zero number — not merely non-null) becomes the
pending item and forces phase `ASK_SIZE` without touching the cart; an
incomplete item without a truthy name is dropped, mutating nothing; a
complete item is appended to the cart in sanitised form, with phase and
pending item unchanged. -/
theorem add_item_sanitization (it : Item) (t : Turn) :
    ((badNS it.name || badNS it.size) = true →
       truthy (sanitizeItem it).name = true →
       (apply_add_item it t).session.temp_item = sanitizeItem it ∧
       (apply_add_item it t).session.state = .ASK_SIZE ∧
       (apply_add_item it t).session.current_order = t.session.current_order) ∧
    ((badNS it.name || badNS it.size) = true →
       truthy (sanitizeItem it).name = false →
       (apply_add_item it t).session = t.session) ∧
    ((badNS it.name || badNS it.size) = false →
       (apply_add_item it t).session.current_order
         = t.session.current_order ++ [sanitizeItem it] ∧
       (apply_add_item it t).session.temp_item = t.session.temp_item ∧
       (apply_add_item it t).session.state = t.session.state) :=
  apply_add_item_behavior it t

/-- C7 witness: a name-only payload with ellipsis size and quantity is
stashed as the pending item with quantity 1 and phase `ASK_SIZE`. -/
theorem add_item_sanitization_witness :
    (apply_add_item ⟨some (.str "Pepperoni"), some .ellipsis, some .ellipsis, none⟩
        { session := {} }).session.temp_item
      = ⟨some (.str "Pepperoni"), none, some (.num 1), none⟩ ∧
    (apply_add_item ⟨some (.str "Pepperoni"), some .ellipsis, some .ellipsis, none⟩
        { session := {} }).session.state = .ASK_SIZE := by
  have h := (add_item_sanitization
    ⟨some (.str "Pepperoni"), some .ellipsis, some .ellipsis, none⟩
    { session := {} }).1 (by decide) (by decide)
  exact ⟨h.1.trans (by decide), h.2.1⟩

/-! ## Result-shape lemmas for the handlers -/

theorem ite_flag_false {p : Prop} [Decidable p] (x y : Turn × String × Bool)
    (hx : x.2.2 = false) (hy : y.2.2 = false) :
    (if p then x else y).2.2 = false := by
  split
  · exact hx
  · exact hy

theorem query_llm_flag_false (ext : Ext) (u c : String) (t : Turn) :
    (query_llm ext u c t).2.2 = false := by
  unfold query_llm
  dsimp only
  exact ite_flag_false _ _ rfl rfl

theorem handle_greeting_res (fl : List String) (ext : Ext) (u : String) (t : Turn) :
    (handle_greeting fl ext u t).2 = .CONTINUE ∨
    (handle_greeting fl ext u t).2 = .SYSEXIT := by
  unfold handle_greeting
  dsimp only
  repeat' split
  all_goals first | exact Or.inl rfl | exact Or.inr rfl

theorem handle_ask_item_res (fl : List String) (ext : Ext) (u : String) (t : Turn) :
    (handle_ask_item fl ext u t).2 = .CONTINUE ∨
    (handle_ask_item fl ext u t).2 = .SYSEXIT := by
  unfold handle_ask_item
  dsimp only
  repeat' split
  all_goals first | exact Or.inl rfl | exact Or.inr rfl

theorem handle_ask_flavor_res (fl : List String) (ext : Ext) (u : String) (t : Turn) :
    (handle_ask_flavor fl ext u t).2 = .CONTINUE ∨
    (handle_ask_flavor fl ext u t).2 = .SYSEXIT := by
  unfold handle_ask_flavor
  dsimp only
  repeat' split
  all_goals first | exact Or.inl rfl | exact Or.inr rfl

theorem handle_ask_size_res (ext : Ext) (u : String) (t : Turn) :
    (handle_ask_size ext u t).2 = .CONTINUE ∨
    (handle_ask_size ext u t).2 = .SYSEXIT := by
  unfold handle_ask_size
  dsimp only
  repeat' split
  all_goals first | exact Or.inl rfl | exact Or.inr rfl

theorem handle_collect_address_res (u : String) (t : Turn) :
    (handle_collect_address u t).2 = .CONTINUE := rfl

theorem handle_collect_phone_res (u : String) (t : Turn) :
    (handle_collect_phone u t).2 = .CONTINUE := by
  unfold handle_collect_phone
  dsimp only
  split <;> rfl

theorem handle_ask_more_res (fl : List String) (ext : Ext) (u : String) (t : Turn) :
    (handle_ask_more fl ext u t).2 = .CONTINUE ∨
    (handle_ask_more fl ext u t).2 = .SYSEXIT := by
  unfold handle_ask_more
  dsimp only
  split
  · split
    · exact Or.inl rfl
    · split
      · exact Or.inl rfl
      · exact Or.inl rfl
  · split
    · split <;> exact Or.inl rfl
    · split
      · exact Or.inr rfl
      · rw [query_llm_flag_false]
        simp

theorem handle_confirm_order_exit (ext : Ext) (u : String) (t : Turn)
    (h : (handle_confirm_order ext u t).2 = .EXIT) :
    (hasSub "yes" (pyLower u) || hasSub "correct" (pyLower u) ||
     hasSub "confirm" (pyLower u)) = true ∧
    (validate_order (sessionOrder t.session)).1 = true := by
  cases hyes : (hasSub "yes" (pyLower u) || hasSub "correct" (pyLower u) ||
      hasSub "confirm" (pyLower u))
  · exfalso
    unfold handle_confirm_order at h
    dsimp only at h
    rw [hyes] at h
    simp at h
  · refine ⟨rfl, ?_⟩
    cases hv : (validate_order (sessionOrder t.session)).1
    · exfalso
      unfold handle_confirm_order at h
      dsimp only at h
      rw [hyes] at h
      simp only [if_true] at h
      rw [send_to_pos_invalid _ _ _ hv] at h
      revert h
      split
      · rename_i heq
        simp at heq
      · split
        · split <;> simp
        · simp
    · rfl

/-! ## C8 — the order-inquiry shortcut -/

/-- C10: the session terminates without a commit exactly on an exact
whole-utterance match of `exit/quit/bye/cancel`: such an utterance ends
the turn loop before any phase logic with the session untouched; any EXIT
produced by a non-matching utterance can only be the commit path (phase
CONFIRM_ORDER, an affirmative token, and a validating order); and the
merely-containing utterance `"cancel my order"` in COLLECT_ADDRESS is
handled by the normal phase logic instead of ending the session. -/
theorem exit_exact_whole_match :
    (∀ (fl : List String) (ext : Ext) (u : String) (t : Turn),
        exit_words.contains (pyLower u) = true →
        process_input fl ext u t =
          (speak "Thanks for calling! Have a great day!" t, .EXIT)) ∧
    (∀ (fl : List String) (ext : Ext) (u : String) (t : Turn),
        (process_input fl ext u t).2 = .EXIT →
        exit_words.contains (pyLower u) = false →
        t.session.state = .CONFIRM_ORDER ∧
        (hasSub "yes" (pyLower u) || hasSub "correct" (pyLower u) ||
         hasSub "confirm" (pyLower u)) = true ∧
        (validate_order (sessionOrder t.session)).1 = true) ∧
    (∀ (fl : List String) (ext : Ext),
        (process_input fl ext "cancel my order"
            { session := { state := .COLLECT_ADDRESS } }).2 = .CONTINUE ∧
        (process_input fl ext "cancel my order"
            { session := { state := .COLLECT_ADDRESS } }).1.session.state
          = .COLLECT_PHONE) := by
  refine ⟨?_, ?_, fun fl ext => ⟨rfl, rfl⟩⟩
  · intro fl ext u t hmatch
    unfold process_input
    dsimp only
    rw [hmatch]
    rfl
  · intro fl ext u t h hne
    unfold process_input at h
    dsimp only at h
    rw [hne] at h
    simp only [Bool.false_eq_true, if_false] at h
    cases hstate : t.session.state <;> rw [hstate] at h
    case GREETING =>
      rcases handle_greeting_res fl ext u t with hc | hc <;> rw [hc] at h <;> simp at h
    case ASK_ITEM =>
      rcases handle_ask_item_res fl ext u t with hc | hc <;> rw [hc] at h <;> simp at h
    case ASK_FLAVOR =>
      rcases handle_ask_flavor_res fl ext u t with hc | hc <;> rw [hc] at h <;> simp at h
    case ASK_SIZE =>
      rcases handle_ask_size_res ext u t with hc | hc <;> rw [hc] at h <;> simp at h
    case ASK_MORE =>
      rcases handle_ask_more_res fl ext u t with hc | hc <;> rw [hc] at h <;> simp at h
    case COLLECT_ADDRESS =>
      rw [handle_collect_address_res u t] at h
      simp at h
    case COLLECT_PHONE =>
      rw [handle_collect_phone_res u t] at h
      simp at h
    case CONFIRM_ORDER =>
      exact ⟨rfl, handle_confirm_order_exit ext u t h⟩
    case COMPLETED =>
      simp at h

/-- C10 witness: an exact `"cancel"` ends the session at once. -/
theorem exit_exact_whole_match_witness :
    process_input [] defaultExt "cancel" { session := { state := .COLLECT_ADDRESS } } =
      (speak "Thanks for calling! Have a great day!"
        { session := { state := .COLLECT_ADDRESS } }, .EXIT) := by
  exact exit_exact_whole_match.1 [] defaultExt "cancel"
    { session := { state := .COLLECT_ADDRESS } } (by decide)

/-! ## C9 — cart invariant: only resolved items reach the cart -/

/-- A resolved cart value: a non-empty string free of the ellipsis marker,
or a number — never null, the `Ellipsis` object, or absent. -/
def goodVal : Option JVal → Bool
  | some (.str s) => s ≠ "" && !hasSub "..." s
  | some (.num _) => true
  | _ => false

/-- The C9 invariant: every cart line has a resolved name and size, and
whenever the machine is in `ASK_SIZE` (about to finalise the pending item
into the cart) the pending item's name is resolved. -/
def cart_inv (s : Session) : Prop :=
  (∀ it ∈ s.current_order, goodVal it.name = true ∧ goodVal it.size = true) ∧
  (s.state = .ASK_SIZE → goodVal s.temp_item.name = true)

/-- Sanity of the external flavor vocabulary: every title-cased flavor is
a usable item name (the menu spreadsheet is collaborator data). -/
def goodFlavors (fl : List String) : Prop :=
  ∀ f ∈ fl, goodVal (some (.str (titlecase f))) = true

theorem goodVal_of_not_badNS {v : Option JVal} (h : badNS v = false) :
    goodVal v = true := by
  match v with
  | none => simp [badNS] at h
  | some .null => simp [badNS] at h
  | some .ellipsis => simp [badNS] at h
  | some (.num n) => rfl
  | some (.str s) =>
      simp only [badNS, Bool.or_eq_false_iff, decide_eq_false_iff_not] at h
      simp [goodVal, h.1, h.2]

theorem truthy_sanitize_good (it : Item)
    (htr : truthy (sanitizeItem it).name = true) :
    goodVal (sanitizeItem it).name = true := by
  unfold sanitizeItem at *
  cases hb : badNS it.name
  · simp only [hb, Bool.false_eq_true, if_false]
    exact goodVal_of_not_badNS hb
  · rw [hb] at htr
    simp [truthy] at htr

theorem cart_inv_congr {s s' : Session}
    (hc : s'.current_order = s.current_order)
    (ht : s'.temp_item = s.temp_item) (hs : s'.state = s.state)
    (h : cart_inv s) : cart_inv s' := by
  constructor
  · intro x hx
    rw [hc] at hx
    exact h.1 x hx
  · intro hst
    rw [ht]
    exact h.2 (by rw [← hs]; exact hst)

theorem apply_add_item_inv (it : Item) (t : Turn) (h : cart_inv t.session) :
    cart_inv (apply_add_item it t).session := by
  have hb := apply_add_item_behavior it t
  cases hinc : (badNS it.name || badNS it.size)
  · obtain ⟨hcart, htemp, hstate⟩ := hb.2.2 hinc
    have hn : badNS it.name = false := by
      cases hx : badNS it.name
      · rfl
      · rw [hx] at hinc
        simp at hinc
    have hs : badNS it.size = false := by
      cases hx : badNS it.size
      · rfl
      · rw [hx] at hinc
        simp at hinc
    constructor
    · intro x hx
      rw [hcart] at hx
      rcases List.mem_append.mp hx with hx | hx
      · exact h.1 x hx
      · rcases List.mem_singleton.mp hx with rfl
        constructor
        · show goodVal (sanitizeItem it).name = true
          simp only [sanitizeItem, hn, Bool.false_eq_true, if_false]
          exact goodVal_of_not_badNS hn
        · show goodVal (sanitizeItem it).size = true
          simp only [sanitizeItem, hs, Bool.false_eq_true, if_false]
          exact goodVal_of_not_badNS hs
    · intro hst
      rw [htemp]
      exact h.2 (by rw [← hstate]; exact hst)
  · cases htr : truthy (sanitizeItem it).name
    · rw [hb.2.1 hinc htr]
      exact h
    · obtain ⟨htemp, hstate, hcart⟩ := hb.1 hinc htr
      constructor
      · intro x hx
        rw [hcart] at hx
        exact h.1 x hx
      · intro _
        rw [htemp]
        exact truthy_sanitize_good it htr

theorem add_item_stage_inv (ext : Ext) (r : String) (t : Turn)
    (h : cart_inv t.session) : cart_inv (add_item_stage ext r t).session := by
  unfold add_item_stage
  split
  · exact h
  · split
    · exact h
    · exact apply_add_item_inv _ _ h

theorem set_details_fields (ext : Ext) (r : String) (t : Turn) :
    (set_details_stage ext r t).session.current_order = t.session.current_order ∧
    (set_details_stage ext r t).session.temp_item = t.session.temp_item ∧
    (set_details_stage ext r t).session.state = t.session.state := by
  unfold set_details_stage
  dsimp only
  split
  · exact ⟨rfl, rfl, rfl⟩
  · split
    · exact ⟨rfl, rfl, rfl⟩
    · split <;> split <;> exact ⟨rfl, rfl, rfl⟩

theorem save_order_session (ext : Ext) (r : String) (t : Turn) :
    (save_order_stage ext r t).session = t.session := by
  unfold save_order_stage
  dsimp only
  split
  · split
    · split <;> rfl
    · rfl
  · rfl

theorem parse_tools_inv (ext : Ext) (r : String) (t : Turn)
    (h : cart_inv t.session) :
    cart_inv (parse_and_execute_tools ext r t).session := by
  unfold parse_and_execute_tools
  rw [save_order_session]
  have h1 := add_item_stage_inv ext r t h
  have hf := set_details_fields ext r (add_item_stage ext r t)
  exact cart_inv_congr hf.1 hf.2.1 hf.2.2 h1

theorem ite_turn_inv {p : Prop} [Decidable p] (x y : Turn × String × Bool)
    (hx : cart_inv x.1.session) (hy : cart_inv y.1.session) :
    cart_inv (if p then x else y).1.session := by
  split
  · exact hx
  · exact hy

theorem query_llm_inv (ext : Ext) (u c : String) (t : Turn)
    (h : cart_inv t.session) :
    cart_inv (query_llm ext u c t).1.session := by
  unfold query_llm
  dsimp only
  exact ite_turn_inv _ _ (parse_tools_inv _ _ _ h)
    (cart_inv_congr rfl rfl rfl (parse_tools_inv _ _ _ h))

theorem detect_flavor_mem {fl : List String} {u f : String}
    (h : detect_pizza_flavor fl u = some f) : f ∈ fl :=
  List.mem_of_find?_eq_some h

theorem detect_size_good {u sz : String} (h : detect_pizza_size u = some sz) :
    goodVal (some (.str (titlecase sz))) = true := by
  unfold detect_pizza_size at h
  dsimp only at h
  revert h
  cases hf : sorted_typos.find? (fun p => hasSub p.1 (pyLower u)) with
  | some p =>
      intro h
      obtain rfl : p.2 = sz := by simpa using h
      have hp := List.mem_of_find?_eq_some hf
      fin_cases hp <;> decide
  | none =>
      intro h
      have hm := List.mem_of_find?_eq_some h
      fin_cases hm <;> decide

theorem handle_greeting_inv (fl : List String) (ext : Ext) (u : String)
    (t : Turn) (hfl : goodFlavors fl) (h : cart_inv t.session) :
    cart_inv (handle_greeting fl ext u t).1.session := by
  unfold handle_greeting
  dsimp only
  repeat' split
  all_goals first
    | exact h
    | exact query_llm_inv _ _ _ _ h
    | exact ⟨fun x hx => h.1 x hx, fun hst => Phase.noConfusion hst⟩
    | (rename_i flavor heq
       exact ⟨fun x hx => h.1 x hx, fun _ => hfl flavor (detect_flavor_mem heq)⟩)

theorem handle_ask_item_inv (fl : List String) (ext : Ext) (u : String)
    (t : Turn) (hfl : goodFlavors fl) (h : cart_inv t.session) :
    cart_inv (handle_ask_item fl ext u t).1.session := by
  unfold handle_ask_item
  dsimp only
  repeat' split
  all_goals first
    | exact h
    | exact query_llm_inv _ _ _ _ h
    | exact ⟨fun x hx => h.1 x hx, fun hst => Phase.noConfusion hst⟩
    | (rename_i flavor heq
       exact ⟨fun x hx => h.1 x hx, fun _ => hfl flavor (detect_flavor_mem heq)⟩)

theorem handle_ask_flavor_inv (fl : List String) (ext : Ext) (u : String)
    (t : Turn) (hfl : goodFlavors fl) (h : cart_inv t.session) :
    cart_inv (handle_ask_flavor fl ext u t).1.session := by
  unfold handle_ask_flavor
  dsimp only
  repeat' split
  all_goals first
    | exact h
    | exact query_llm_inv _ _ _ _ h
    | exact ⟨fun x hx => h.1 x hx, fun hst => Phase.noConfusion hst⟩
    | (rename_i flavor heq
       exact ⟨fun x hx => h.1 x hx, fun _ => hfl flavor (detect_flavor_mem heq)⟩)

theorem handle_ask_size_inv (ext : Ext) (u : String) (t : Turn)
    (hst : t.session.state = .ASK_SIZE) (h : cart_inv t.session) :
    cart_inv (handle_ask_size ext u t).1.session := by
  unfold handle_ask_size
  dsimp only
  split
  · rename_i size heq
    refine ⟨?_, fun hc => Phase.noConfusion hc⟩
    intro x hx
    rcases List.mem_append.mp hx with hx | hx
    · exact h.1 x hx
    · rcases List.mem_singleton.mp hx with rfl
      exact ⟨h.2 hst, detect_size_good heq⟩
  · split
    · exact query_llm_inv _ _ _ _ h
    · exact query_llm_inv _ _ _ _ h

theorem handle_collect_address_inv (u : String) (t : Turn)
    (h : cart_inv t.session) :
    cart_inv (handle_collect_address u t).1.session :=
  ⟨fun x hx => h.1 x hx, fun hc => Phase.noConfusion hc⟩

theorem handle_collect_phone_inv (u : String) (t : Turn)
    (h : cart_inv t.session) :
    cart_inv (handle_collect_phone u t).1.session := by
  unfold handle_collect_phone
  dsimp only
  split
  · exact ⟨fun x hx => h.1 x hx, fun hc => Phase.noConfusion hc⟩
  · exact h

theorem handle_confirm_order_inv (ext : Ext) (u : String) (t : Turn)
    (h : cart_inv t.session) :
    cart_inv (handle_confirm_order ext u t).1.session := by
  unfold handle_confirm_order
  dsimp only
  repeat' split
  all_goals first
    | exact h
    | exact ⟨fun x hx => h.1 x hx, fun hc => Phase.noConfusion hc⟩

theorem handle_ask_more_inv (fl : List String) (ext : Ext) (u : String)
    (t : Turn) (hfl : goodFlavors fl) (h : cart_inv t.session) :
    cart_inv (handle_ask_more fl ext u t).1.session := by
  unfold handle_ask_more
  dsimp only
  repeat' split
  all_goals first
    | exact h
    | exact query_llm_inv _ _ _ _ h
    | exact ⟨fun x hx => h.1 x hx, fun hc => Phase.noConfusion hc⟩
    | (rename_i flavor heq
       exact ⟨fun x hx => h.1 x hx, fun _ => hfl flavor (detect_flavor_mem heq)⟩)
    | exact handle_collect_phone_inv _ _
        ⟨fun x hx => h.1 x hx, fun hc => Phase.noConfusion hc⟩

/-- C9: the cart invariant — every line item in the cart has a resolved
name and a resolved size (no empty, null, ellipsis or placeholder value),
and in phase `ASK_SIZE` the pending item's name is resolved — is preserved
by every turn of the state machine, for every utterance and every
collaborator behaviour (both deterministic `ASK_SIZE` finalisation and the
tool-call `ADD_ITEM` path), provided the external flavor vocabulary
consists of usable names. -/
theorem cart_inv_preserved (fl : List String) (ext : Ext) (u : String)
    (t : Turn) (hfl : goodFlavors fl) (h : cart_inv t.session) :
    cart_inv (process_input fl ext u t).1.session := by
  unfold process_input
  dsimp only
  split
  · exact h
  · cases hstate : t.session.state
    case GREETING => exact handle_greeting_inv fl ext u t hfl h
    case ASK_ITEM => exact handle_ask_item_inv fl ext u t hfl h
    case ASK_FLAVOR => exact handle_ask_flavor_inv fl ext u t hfl h
    case ASK_SIZE => exact handle_ask_size_inv ext u t hstate h
    case ASK_MORE => exact handle_ask_more_inv fl ext u t hfl h
    case COLLECT_ADDRESS => exact handle_collect_address_inv u t h
    case COLLECT_PHONE => exact handle_collect_phone_inv u t h
    case CONFIRM_ORDER => exact handle_confirm_order_inv ext u t h
    case COMPLETED => exact h

/-- The C9 witness session: a pending `Chicken Surprise` in `ASK_SIZE`. -/
def c9Turn : Turn :=
  { session := { state := .ASK_SIZE,
                 temp_item := ⟨some (.str "Chicken Surprise"), none,
                               some (.num 2), some "Pizza"⟩ } }

/-- C9 witness: finalising the pending item in `ASK_SIZE` with the
utterance `"large please"` keeps the invariant. -/
theorem cart_inv_preserved_witness :
    goodFlavors ["chicken surprise"] ∧
    cart_inv (process_input ["chicken surprise"] defaultExt "large please"
        c9Turn).1.session := by
  have hfl : goodFlavors ["chicken surprise"] := by
    intro f hf
    rcases List.mem_singleton.mp hf with rfl
    decide
  have hinv : cart_inv c9Turn.session := by
    constructor
    · intro it hit
      exact absurd hit (List.not_mem_nil it)
    · intro _
      decide
  exact ⟨hfl, cart_inv_preserved ["chicken surprise"] defaultExt "large please"
    c9Turn hfl hinv⟩

end OrderTaker
